import Mathlib

/-!
Shallow embedding of the proof-of-existence template pallet
(`pallets/template/src/lib.rs`) and verification of its claim-registry
state-transition logic.

The pallet stores a map from a content fingerprint (`T::Hash`) to the pair
`(owner : T::AccountId, registered_at : BlockNumberFor T)` and exposes two
dispatchables, `create_claim` and `revoke_claim`.  We embed the storage map
as an association list with the `StorageMap` operations used by the source
(`contains_key`, `get`, `insert`, `remove`), the pallet state as the pair of
the map and the list of deposited events, and each dispatchable as an
explicit state-passing function returning the dispatch result together with
the post-state.  The block number read from `frame_system` is passed in as a
parameter (it is an external collaborator, the logical clock).
-/

set_option autoImplicit false

namespace PoE

/-- The dispatch origin of a call, as in `frame_system`: signed by an
account, the root origin, or an unsigned (none) origin. -/
inductive Origin (A : Type) where
  | signed (who : A)
  | root
  | unsigned
deriving DecidableEq

/-- Errors a dispatch can end with: `badOrigin` from the `ensure_signed`
signature check, and the three pallet errors `AlreadyClaimed`,
`NoSuchClaim`, `NotClaimOwner` declared in the `#[pallet::error]` enum. -/
inductive DispatchError where
  | badOrigin
  | alreadyClaimed
  | noSuchClaim
  | notClaimOwner
deriving DecidableEq

/-- The events declared in the `#[pallet::event]` enum. -/
inductive Event (A H : Type) where
  | ClaimCreated (who : A) (claim : H)
  | ClaimRevoked (who : A) (claim : H)
deriving DecidableEq

/-- Result of a dispatchable: `Ok(())` or an error. -/
inductive DispatchResult where
  | ok
  | err (e : DispatchError)
deriving DecidableEq

/-- `ensure_signed`: return the signer of a signed origin, or fail with the
signature-check error `badOrigin`. -/
def ensure_signed {A : Type} : Origin A → Except DispatchError A
  | Origin.signed who => Except.ok who
  | Origin.root => Except.error DispatchError.badOrigin
  | Origin.unsigned => Except.error DispatchError.badOrigin

/-- The keyed storage substrate backing the `Claims` storage item: an
association list from keys to values, observed only through the
`StorageMap` operations below. -/
abbrev StorageMap (H V : Type) : Type := List (H × V)

namespace StorageMap

variable {H V : Type} [DecidableEq H]

/-- `StorageMap::contains_key`. -/
def contains_key (m : StorageMap H V) (k : H) : Bool :=
  m.any (fun p => decide (p.1 = k))

/-- `StorageMap::get` (the `Option`-valued read used by the source). -/
def get (m : StorageMap H V) (k : H) : Option V :=
  (m.find? (fun p => decide (p.1 = k))).map Prod.snd

/-- `StorageMap::remove`: delete every entry under key `k`. -/
def remove (m : StorageMap H V) (k : H) : StorageMap H V :=
  m.filter (fun p => !decide (p.1 = k))

/-- `StorageMap::insert`: overwrite the entry under key `k` with value `v`. -/
def insert (m : StorageMap H V) (k : H) (v : V) : StorageMap H V :=
  (k, v) :: remove m k

theorem contains_key_nil (k : H) : contains_key ([] : StorageMap H V) k = false := rfl

theorem contains_key_cons (p : H × V) (m : StorageMap H V) (k : H) :
    contains_key (p :: m) k = (decide (p.1 = k) || contains_key m k) := by
  simp [contains_key]

theorem get_cons (p : H × V) (m : StorageMap H V) (k : H) :
    get (p :: m) k = if p.1 = k then some p.2 else get m k := by
  by_cases h : p.1 = k
  · simp [get, List.find?, h]
  · simp [get, List.find?, h]

/-- A key reported present by `contains_key` has a `some` value under `get`. -/
theorem get_isSome_of_contains (m : StorageMap H V) (k : H)
    (h : contains_key m k = true) : (get m k).isSome = true := by
  induction m with
  | nil => simp [contains_key] at h
  | cons p t ih =>
      rw [contains_key_cons] at h
      rw [get_cons]
      by_cases hp : p.1 = k
      · simp [hp]
      · simp [hp] at h ⊢
        exact ih h

/-- A key with a `some` value under `get` is reported present. -/
theorem contains_of_get_eq_some (m : StorageMap H V) (k : H) (v : V)
    (h : get m k = some v) : contains_key m k = true := by
  induction m with
  | nil => simp [get] at h
  | cons p t ih =>
      rw [get_cons] at h
      rw [contains_key_cons]
      by_cases hp : p.1 = k
      · simp [hp]
      · simp [hp] at h ⊢
        exact ih h

/-- Removing an absent key leaves the map unchanged. -/
theorem remove_of_not_contains (m : StorageMap H V) (k : H)
    (h : contains_key m k = false) : remove m k = m := by
  induction m with
  | nil => rfl
  | cons p t ih =>
      rw [contains_key_cons] at h
      simp only [Bool.or_eq_false_iff] at h
      have hp : ¬ p.1 = k := by
        intro hk
        simp [hk] at h
      simp [remove, List.filter, hp] at ih ⊢
      exact ih h.2

/-- Reading the key just inserted yields the inserted value. -/
theorem get_insert_self (m : StorageMap H V) (k : H) (v : V) :
    get (insert m k v) k = some v := by
  rw [insert, get_cons]
  simp

/-- `contains_key` holds at the key just inserted. -/
theorem contains_insert_self (m : StorageMap H V) (k : H) (v : V) :
    contains_key (insert m k v) k = true := by
  rw [insert, contains_key_cons]
  simp

/-- `remove` does not change the value stored under a different key. -/
theorem get_remove_ne (m : StorageMap H V) (k g : H) (h : g ≠ k) :
    get (remove m k) g = get m g := by
  induction m with
  | nil => rfl
  | cons p t ih =>
      rw [get_cons]
      by_cases hp : p.1 = k
      · have hg : ¬ p.1 = g := fun hgg => h (hgg ▸ hp)
        rw [if_neg hg]
        have hrm : remove (p :: t) k = remove t k := by
          simp [remove, List.filter, hp]
        rw [hrm]
        exact ih
      · have hrm : remove (p :: t) k = p :: remove t k := by
          simp [remove, List.filter, hp]
        rw [hrm, get_cons]
        by_cases hg : p.1 = g
        · rw [if_pos hg, if_pos hg]
        · rw [if_neg hg, if_neg hg]
          exact ih

/-- `insert` does not change the value stored under a different key. -/
theorem get_insert_ne (m : StorageMap H V) (k g : H) (v : V) (h : g ≠ k) :
    get (insert m k v) g = get m g := by
  rw [insert, get_cons]
  have hk : ¬ k = g := fun hkg => h hkg.symm
  rw [if_neg hk]
  exact get_remove_ne m k g h

/-- Removing a key right after inserting it removes exactly that key. -/
theorem remove_insert (m : StorageMap H V) (k : H) (v : V) :
    remove (insert m k v) k = remove m k := by
  simp [insert, remove, List.filter]

end StorageMap

/-- The full observable pallet state: the `Claims` storage map (fingerprint
→ `(owner, registered_at)`) plus the list of events deposited so far. -/
structure PalletState (H A B : Type) where
  claims : StorageMap H (A × B)
  events : List (Event A H)
deriving DecidableEq

/-- `deposit_event`: append an event to the event sink. -/
def deposit_event {H A B : Type} (st : PalletState H A B) (e : Event A H) :
    PalletState H A B :=
  { st with events := st.events ++ [e] }

/-- `Pallet::create_claim` from `pallets/template/src/lib.rs`: ensure the
origin is signed, fail with `AlreadyClaimed` if the fingerprint is already
stored, otherwise insert `(sender, current_block)` under the fingerprint and
deposit `ClaimCreated`.  `current_block` is the value read from
`frame_system::Pallet::<T>::block_number()`. -/
def create_claim {H A B : Type} [DecidableEq H] [DecidableEq A]
    (st : PalletState H A B) (origin : Origin A) (claim : H)
    (current_block : B) : DispatchResult × PalletState H A B :=
  match ensure_signed origin with
  | Except.error e => (DispatchResult.err e, st)
  | Except.ok sender =>
      if StorageMap.contains_key st.claims claim then
        (DispatchResult.err DispatchError.alreadyClaimed, st)
      else
        let st1 : PalletState H A B :=
          { st with claims := StorageMap.insert st.claims claim (sender, current_block) }
        (DispatchResult.ok, deposit_event st1 (Event.ClaimCreated sender claim))

/-- `Pallet::revoke_claim` from `pallets/template/src/lib.rs`: ensure the
origin is signed, fail with `NoSuchClaim` if the fingerprint is absent,
re-fetch the stored claim (its own `NoSuchClaim` path via `ok_or`), fail
with `NotClaimOwner` if the stored owner differs from the sender, otherwise
remove the entry and deposit `ClaimRevoked`. -/
def revoke_claim {H A B : Type} [DecidableEq H] [DecidableEq A]
    (st : PalletState H A B) (origin : Origin A) (claim : H) :
    DispatchResult × PalletState H A B :=
  match ensure_signed origin with
  | Except.error e => (DispatchResult.err e, st)
  | Except.ok sender =>
      if StorageMap.contains_key st.claims claim then
        match StorageMap.get st.claims claim with
        | none => (DispatchResult.err DispatchError.noSuchClaim, st)
        | some (original_claimant, _) =>
            if original_claimant = sender then
              let st1 : PalletState H A B :=
                { st with claims := StorageMap.remove st.claims claim }
              (DispatchResult.ok, deposit_event st1 (Event.ClaimRevoked sender claim))
            else
              (DispatchResult.err DispatchError.notClaimOwner, st)
      else
        (DispatchResult.err DispatchError.noSuchClaim, st)

/-- Claim C1: for every registry state in which fingerprint `f` is absent,
`create_claim` by a signed requester succeeds, inserts the claim record
`(requester, current_block)` under key `f` (so the stored owner is the
requester and `registered_at` is the logical clock value), and emits the
event `ClaimCreated{who: requester, claim: f}`. -/
theorem create_claim_on_absent_succeeds
    {H A B : Type} [DecidableEq H] [DecidableEq A]
    (st : PalletState H A B) (a : A) (f : H) (blk : B)
    (habs : StorageMap.contains_key st.claims f = false) :
    create_claim st (Origin.signed a) f blk
      = (DispatchResult.ok,
         { claims := StorageMap.insert st.claims f (a, blk),
           events := st.events ++ [Event.ClaimCreated a f] })
    ∧ StorageMap.get (StorageMap.insert st.claims f (a, blk)) f = some (a, blk) := by
  refine ⟨?_, StorageMap.get_insert_self st.claims f (a, blk)⟩
  simp [create_claim, ensure_signed, habs, deposit_event]

/-- Witness for C1 at a concrete input. -/
theorem create_claim_on_absent_succeeds_witness :
    create_claim (PalletState.mk ([] : StorageMap Nat (Nat × Nat)) []) (Origin.signed 7) 3 11
      = (DispatchResult.ok,
         { claims := StorageMap.insert ([] : StorageMap Nat (Nat × Nat)) 3 (7, 11),
           events := ([] : List (Event Nat Nat)) ++ [Event.ClaimCreated 7 3] })
    ∧ StorageMap.get (StorageMap.insert ([] : StorageMap Nat (Nat × Nat)) 3 (7, 11)) 3
        = some (7, 11) :=
  create_claim_on_absent_succeeds (PalletState.mk [] []) 7 3 11 (by decide)

/-- Claim C2: for every registry state in which fingerprint `f` is present
with owner `a`, `create_claim` by any signed caller `b` (including `b = a`)
fails with `AlreadyClaimed`, the whole state (registry and event list) is
unchanged, and in particular the entry for `f` still holds `(a, t)`. -/
theorem create_claim_on_present_fails
    {H A B : Type} [DecidableEq H] [DecidableEq A]
    (st : PalletState H A B) (a b : A) (t : B) (f : H) (blk : B)
    (hpres : StorageMap.get st.claims f = some (a, t)) :
    create_claim st (Origin.signed b) f blk
      = (DispatchResult.err DispatchError.alreadyClaimed, st)
    ∧ StorageMap.get (create_claim st (Origin.signed b) f blk).snd.claims f = some (a, t) := by
  have hc : StorageMap.contains_key st.claims f = true :=
    StorageMap.contains_of_get_eq_some st.claims f (a, t) hpres
  constructor
  · simp [create_claim, ensure_signed, hc]
  · simp [create_claim, ensure_signed, hc, hpres]

/-- Witness for C2 at a concrete input (the owner itself re-claims). -/
theorem create_claim_on_present_fails_witness :
    create_claim (PalletState.mk ([(3, (7, 11))] : StorageMap Nat (Nat × Nat)) [])
        (Origin.signed 7) 3 12
      = (DispatchResult.err DispatchError.alreadyClaimed,
         PalletState.mk ([(3, (7, 11))] : StorageMap Nat (Nat × Nat)) [])
    ∧ StorageMap.get
        (create_claim (PalletState.mk ([(3, (7, 11))] : StorageMap Nat (Nat × Nat)) [])
          (Origin.signed 7) 3 12).snd.claims 3 = some (7, 11) :=
  create_claim_on_present_fails (PalletState.mk [(3, (7, 11))] []) 7 7 11 3 12 (by decide)

/-- Claim C3: for every registry state in which fingerprint `f` is present
with owner `a`, `revoke_claim` by the signed owner `a` succeeds, removes the
entry for `f` from the registry, and emits `ClaimRevoked{who: a, claim: f}`. -/
theorem revoke_claim_by_owner_succeeds
    {H A B : Type} [DecidableEq H] [DecidableEq A]
    (st : PalletState H A B) (a : A) (t : B) (f : H)
    (hpres : StorageMap.get st.claims f = some (a, t)) :
    revoke_claim st (Origin.signed a) f
      = (DispatchResult.ok,
         { claims := StorageMap.remove st.claims f,
           events := st.events ++ [Event.ClaimRevoked a f] }) := by
  have hc : StorageMap.contains_key st.claims f = true :=
    StorageMap.contains_of_get_eq_some st.claims f (a, t) hpres
  simp [revoke_claim, ensure_signed, hc, hpres, deposit_event]

/-- Witness for C3 at a concrete input. -/
theorem revoke_claim_by_owner_succeeds_witness :
    revoke_claim (PalletState.mk ([(3, (7, 11))] : StorageMap Nat (Nat × Nat)) [])
        (Origin.signed 7) 3
      = (DispatchResult.ok,
         { claims := StorageMap.remove ([(3, (7, 11))] : StorageMap Nat (Nat × Nat)) 3,
           events := ([] : List (Event Nat Nat)) ++ [Event.ClaimRevoked 7 3] }) :=
  revoke_claim_by_owner_succeeds (PalletState.mk [(3, (7, 11))] []) 7 11 3 (by decide)

/-- Claim C4: for every registry state in which fingerprint `f` is present
with owner `a`, and every signed caller `b ≠ a`, `revoke_claim` fails with
`NotClaimOwner`, the whole state is unchanged, and the entry for `f` still
holds `(a, t)`. -/
theorem revoke_claim_by_non_owner_fails
    {H A B : Type} [DecidableEq H] [DecidableEq A]
    (st : PalletState H A B) (a b : A) (t : B) (f : H)
    (hpres : StorageMap.get st.claims f = some (a, t)) (hne : b ≠ a) :
    revoke_claim st (Origin.signed b) f
      = (DispatchResult.err DispatchError.notClaimOwner, st)
    ∧ StorageMap.get (revoke_claim st (Origin.signed b) f).snd.claims f = some (a, t) := by
  have hc : StorageMap.contains_key st.claims f = true :=
    StorageMap.contains_of_get_eq_some st.claims f (a, t) hpres
  have hab : ¬ a = b := fun h => hne h.symm
  constructor
  · simp [revoke_claim, ensure_signed, hc, hpres, hab]
  · simp [revoke_claim, ensure_signed, hc, hpres, hab]

/-- Witness for C4 at a concrete input. -/
theorem revoke_claim_by_non_owner_fails_witness :
    revoke_claim (PalletState.mk ([(3, (7, 11))] : StorageMap Nat (Nat × Nat)) [])
        (Origin.signed 8) 3
      = (DispatchResult.err DispatchError.notClaimOwner,
         PalletState.mk ([(3, (7, 11))] : StorageMap Nat (Nat × Nat)) [])
    ∧ StorageMap.get
        (revoke_claim (PalletState.mk ([(3, (7, 11))] : StorageMap Nat (Nat × Nat)) [])
          (Origin.signed 8) 3).snd.claims 3 = some (7, 11) :=
  revoke_claim_by_non_owner_fails (PalletState.mk [(3, (7, 11))] []) 7 8 11 3
    (by decide) (by decide)

/-- Claim C5: every invocation of `create_claim` or `revoke_claim` that
returns an error (any error kind) leaves the whole observable state —
registry contents and event list — exactly as it was: failing transitions
are complete no-ops. -/
theorem failing_transition_is_noop
    {H A B : Type} [DecidableEq H] [DecidableEq A]
    (st : PalletState H A B) (o : Origin A) (f : H) (blk : B) (e : DispatchError) :
    ((create_claim st o f blk).fst = DispatchResult.err e →
      (create_claim st o f blk).snd = st)
    ∧ ((revoke_claim st o f).fst = DispatchResult.err e →
      (revoke_claim st o f).snd = st) := by
  constructor
  · cases o with
    | signed a =>
        by_cases hc : StorageMap.contains_key st.claims f = true
        · intro _
          simp [create_claim, ensure_signed, hc]
        · simp only [Bool.not_eq_true] at hc
          intro hres
          simp [create_claim, ensure_signed, hc] at hres
    | root => intro _; rfl
    | unsigned => intro _; rfl
  · cases o with
    | signed a =>
        by_cases hc : StorageMap.contains_key st.claims f = true
        · cases hget : StorageMap.get st.claims f with
          | none =>
              intro _
              simp [revoke_claim, ensure_signed, hc, hget]
          | some v =>
              obtain ⟨oa, t⟩ := v
              by_cases hown : oa = a
              · intro hres
                simp [revoke_claim, ensure_signed, hc, hget, hown] at hres
              · intro _
                simp [revoke_claim, ensure_signed, hc, hget, hown]
        · simp only [Bool.not_eq_true] at hc
          intro _
          simp [revoke_claim, ensure_signed, hc]
    | root => intro _; rfl
    | unsigned => intro _; rfl

/-- Witness for C5 at a concrete input (unsigned origin, so both calls
fail with `badOrigin` and both leave the state unchanged). -/
theorem failing_transition_is_noop_witness :
    (create_claim (PalletState.mk ([] : StorageMap Nat (Nat × Nat)) [])
        Origin.unsigned 3 0).snd = PalletState.mk [] []
    ∧ (revoke_claim (PalletState.mk ([] : StorageMap Nat (Nat × Nat)) [])
        Origin.unsigned 3).snd = PalletState.mk [] [] :=
  ⟨(failing_transition_is_noop (PalletState.mk [] []) Origin.unsigned 3 0
      DispatchError.badOrigin).1 (by decide),
   (failing_transition_is_noop (PalletState.mk [] []) Origin.unsigned 3 0
      DispatchError.badOrigin).2 (by decide)⟩

/-- Claim C6: from a state in which fingerprint `f` is absent, a successful
`create_claim` by signed actor `a` followed by a successful `revoke_claim`
by `a` returns the registry to exactly its pre-creation contents: `f` is
absent again and every other entry is as it was before. -/
theorem create_then_revoke_round_trip
    {H A B : Type} [DecidableEq H] [DecidableEq A]
    (st : PalletState H A B) (a : A) (f : H) (blk : B)
    (habs : StorageMap.contains_key st.claims f = false) :
    (create_claim st (Origin.signed a) f blk).fst = DispatchResult.ok
    ∧ (revoke_claim (create_claim st (Origin.signed a) f blk).snd (Origin.signed a) f).fst
        = DispatchResult.ok
    ∧ (revoke_claim (create_claim st (Origin.signed a) f blk).snd (Origin.signed a) f).snd.claims
        = st.claims := by
  have hcr : create_claim st (Origin.signed a) f blk
      = (DispatchResult.ok,
         { claims := StorageMap.insert st.claims f (a, blk),
           events := st.events ++ [Event.ClaimCreated a f] }) := by
    simp [create_claim, ensure_signed, habs, deposit_event]
  have hrm : StorageMap.remove (StorageMap.insert st.claims f (a, blk)) f = st.claims := by
    rw [StorageMap.remove_insert]
    exact StorageMap.remove_of_not_contains st.claims f habs
  refine ⟨by rw [hcr], ?_, ?_⟩
  · rw [hcr]
    simp [revoke_claim, ensure_signed, StorageMap.contains_insert_self,
      StorageMap.get_insert_self, deposit_event]
  · rw [hcr]
    simp [revoke_claim, ensure_signed, StorageMap.contains_insert_self,
      StorageMap.get_insert_self, deposit_event, hrm]

/-- Witness for C6 at a concrete input with another entry present. -/
theorem create_then_revoke_round_trip_witness :
    (create_claim (PalletState.mk ([(9, (2, 5))] : StorageMap Nat (Nat × Nat)) [])
        (Origin.signed 7) 3 11).fst = DispatchResult.ok
    ∧ (revoke_claim
        (create_claim (PalletState.mk ([(9, (2, 5))] : StorageMap Nat (Nat × Nat)) [])
          (Origin.signed 7) 3 11).snd (Origin.signed 7) 3).fst = DispatchResult.ok
    ∧ (revoke_claim
        (create_claim (PalletState.mk ([(9, (2, 5))] : StorageMap Nat (Nat × Nat)) [])
          (Origin.signed 7) 3 11).snd (Origin.signed 7) 3).snd.claims
        = (PalletState.mk ([(9, (2, 5))] : StorageMap Nat (Nat × Nat)) []).claims :=
  create_then_revoke_round_trip (PalletState.mk [(9, (2, 5))] []) 7 3 11 (by decide)

/-- Claim C7: on a state in which fingerprint `f` is absent, `revoke_claim`
by any signed caller fails with `NoSuchClaim` and changes nothing, and —
because the failed call changes nothing — every repetition of the call
(iterating the state through any number of such failed calls) fails with
`NoSuchClaim` from the same unchanged state. -/
theorem revoke_absent_idempotent_failure
    {H A B : Type} [DecidableEq H] [DecidableEq A]
    (st : PalletState H A B) (a : A) (f : H)
    (habs : StorageMap.contains_key st.claims f = false) :
    ∀ n : Nat,
      revoke_claim ((fun s => (revoke_claim s (Origin.signed a) f).snd)^[n] st)
          (Origin.signed a) f
        = (DispatchResult.err DispatchError.noSuchClaim, st) := by
  have h1 : revoke_claim st (Origin.signed a) f
      = (DispatchResult.err DispatchError.noSuchClaim, st) := by
    simp [revoke_claim, ensure_signed, habs]
  intro n
  have hfix : (fun s => (revoke_claim s (Origin.signed a) f).snd)^[n] st = st :=
    Function.iterate_fixed (by simp [h1]) n
  rw [hfix, h1]

/-- Witness for C7 at a concrete input, repeated three times. -/
theorem revoke_absent_idempotent_failure_witness :
    revoke_claim ((fun s => (revoke_claim s (Origin.signed 7) 3).snd)^[3]
        (PalletState.mk ([(9, (2, 5))] : StorageMap Nat (Nat × Nat)) []))
        (Origin.signed 7) 3
      = (DispatchResult.err DispatchError.noSuchClaim,
         PalletState.mk ([(9, (2, 5))] : StorageMap Nat (Nat × Nat)) []) :=
  revoke_absent_idempotent_failure (PalletState.mk [(9, (2, 5))] []) 7 3 (by decide) 3

/-- Claim C8: when the step-1 presence check of `revoke_claim` succeeds
(`contains_key` is `true` for `f`), the defensive re-fetch always returns
the stored claim (`get` is `some`), so the second `NoSuchClaim` branch is
unreachable: for no origin does `revoke_claim` then return `NoSuchClaim`. -/
theorem defensive_refetch_unreachable
    {H A B : Type} [DecidableEq H] [DecidableEq A]
    (st : PalletState H A B) (o : Origin A) (f : H)
    (hpres : StorageMap.contains_key st.claims f = true) :
    (StorageMap.get st.claims f).isSome = true
    ∧ (revoke_claim st o f).fst ≠ DispatchResult.err DispatchError.noSuchClaim := by
  have hsome : (StorageMap.get st.claims f).isSome = true :=
    StorageMap.get_isSome_of_contains st.claims f hpres
  refine ⟨hsome, ?_⟩
  cases o with
  | signed s =>
      cases hget : StorageMap.get st.claims f with
      | none =>
          rw [hget] at hsome
          simp at hsome
      | some v =>
          obtain ⟨oa, t⟩ := v
          by_cases hown : oa = s
          · simp [revoke_claim, ensure_signed, hpres, hget, hown]
          · simp [revoke_claim, ensure_signed, hpres, hget, hown]
  | root => simp [revoke_claim, ensure_signed]
  | unsigned => simp [revoke_claim, ensure_signed]

/-- Witness for C8 at a concrete input (present claim, non-owner caller). -/
theorem defensive_refetch_unreachable_witness :
    (StorageMap.get ([(3, (7, 11))] : StorageMap Nat (Nat × Nat)) 3).isSome = true
    ∧ (revoke_claim (PalletState.mk ([(3, (7, 11))] : StorageMap Nat (Nat × Nat)) [])
        (Origin.signed 8) 3).fst ≠ DispatchResult.err DispatchError.noSuchClaim :=
  defensive_refetch_unreachable (PalletState.mk [(3, (7, 11))] []) (Origin.signed 8) 3
    (by decide)

/-- Claim C9: both `create_claim` and `revoke_claim`, whether they succeed
or fail, leave the registry entry of every fingerprint `g` other than the
argument fingerprint `f` exactly unchanged: each transition touches at most
the key it was called with. -/
theorem transition_frame_other_keys
    {H A B : Type} [DecidableEq H] [DecidableEq A]
    (st : PalletState H A B) (o : Origin A) (f g : H) (blk : B) (hne : g ≠ f) :
    StorageMap.get (create_claim st o f blk).snd.claims g = StorageMap.get st.claims g
    ∧ StorageMap.get (revoke_claim st o f).snd.claims g = StorageMap.get st.claims g := by
  constructor
  · cases o with
    | signed a =>
        by_cases hc : StorageMap.contains_key st.claims f = true
        · simp [create_claim, ensure_signed, hc]
        · simp only [Bool.not_eq_true] at hc
          simp only [create_claim, ensure_signed, hc, deposit_event,
            Bool.false_eq_true, if_false]
          exact StorageMap.get_insert_ne st.claims f g (a, blk) hne
    | root => rfl
    | unsigned => rfl
  · cases o with
    | signed a =>
        by_cases hc : StorageMap.contains_key st.claims f = true
        · cases hget : StorageMap.get st.claims f with
          | none =>
              simp [revoke_claim, ensure_signed, hc, hget]
          | some v =>
              obtain ⟨oa, t⟩ := v
              by_cases hown : oa = a
              · simp only [revoke_claim, ensure_signed, hc, hget, hown,
                  deposit_event, if_true, if_pos]
                exact StorageMap.get_remove_ne st.claims f g hne
              · simp [revoke_claim, ensure_signed, hc, hget, hown]
        · simp only [Bool.not_eq_true] at hc
          simp [revoke_claim, ensure_signed, hc]
    | root => rfl
    | unsigned => rfl

/-- Witness for C9 at a concrete input (a successful create and a
successful revoke, observed at the untouched key 9). -/
theorem transition_frame_other_keys_witness :
    StorageMap.get
        (create_claim (PalletState.mk ([(9, (2, 5)), (3, (7, 11))] : StorageMap Nat (Nat × Nat)) [])
          (Origin.signed 7) 3 11).snd.claims 9
      = StorageMap.get ([(9, (2, 5)), (3, (7, 11))] : StorageMap Nat (Nat × Nat)) 9
    ∧ StorageMap.get
        (revoke_claim (PalletState.mk ([(9, (2, 5)), (3, (7, 11))] : StorageMap Nat (Nat × Nat)) [])
          (Origin.signed 7) 3).snd.claims 9
      = StorageMap.get ([(9, (2, 5)), (3, (7, 11))] : StorageMap Nat (Nat × Nat)) 9 :=
  transition_frame_other_keys (PalletState.mk [(9, (2, 5)), (3, (7, 11))] [])
    (Origin.signed 7) 3 9 11 (by decide)

/-- Claim C10: a call to `create_claim` or `revoke_claim` whose origin is
not a signed origin returns the signature-check error `badOrigin` and
leaves the whole state unchanged — no registry lookup result, mutation, or
event emission is observable, for every fingerprint argument. -/
theorem unsigned_origin_rejected
    {H A B : Type} [DecidableEq H] [DecidableEq A]
    (st : PalletState H A B) (o : Origin A) (f : H) (blk : B)
    (h : ∀ a : A, o ≠ Origin.signed a) :
    create_claim st o f blk = (DispatchResult.err DispatchError.badOrigin, st)
    ∧ revoke_claim st o f = (DispatchResult.err DispatchError.badOrigin, st) := by
  cases o with
  | signed a => exact absurd rfl (h a)
  | root => exact ⟨rfl, rfl⟩
  | unsigned => exact ⟨rfl, rfl⟩

/-- Witness for C10 at a concrete input (root origin, nonempty registry). -/
theorem unsigned_origin_rejected_witness :
    create_claim (PalletState.mk ([(3, (7, 11))] : StorageMap Nat (Nat × Nat)) [])
        Origin.root 3 12
      = (DispatchResult.err DispatchError.badOrigin,
         PalletState.mk ([(3, (7, 11))] : StorageMap Nat (Nat × Nat)) [])
    ∧ revoke_claim (PalletState.mk ([(3, (7, 11))] : StorageMap Nat (Nat × Nat)) [])
        Origin.root 3
      = (DispatchResult.err DispatchError.badOrigin,
         PalletState.mk ([(3, (7, 11))] : StorageMap Nat (Nat × Nat)) []) :=
  unsigned_origin_rejected (PalletState.mk [(3, (7, 11))] []) Origin.root 3 12
    (fun _ h => Origin.noConfusion h)

end PoE
